import Mathlib

/-!
Verification of the batch image-to-3D orchestration script (z3v_official.py).

The script drives two pretrained pipelines (shape, paint) over a batch of
images.  We shallowly embed the parts of the script that the specification
talks about:

* file contents are byte lists (`List Nat`); a filesystem is a partial map
  from path strings to contents, with `none` standing for a path on which
  opening or reading raises an exception;
* PIL images are records carrying the PIL mode string, whether the image
  info dictionary holds a transparency entry, and an opaque pixel-content
  identifier (pixel data itself is external to the script and abstracted);
* the external background-removal model is an arbitrary function on images;
* the per-image loop with its try/except/finally is a state transformer on
  an orchestrator state holding the current working directory, an opaque
  external world, and the console log; the body of the try block is an
  arbitrary effect that may raise.
-/

/-! ## Path helpers (pathlib semantics used by the script) -/

/-- Final path component, as in pathlib `Path.name`. -/
def pathName (p : String) : String :=
  String.mk ((p.toList.reverse.takeWhile (fun c => c ≠ '/')).reverse)

/-- File extension of the final component, as in pathlib `Path.suffix`:
the substring from the last dot, or empty when the name has no dot, starts
with its only dot, or ends with the dot. -/
def pathSuffix (p : String) : String :=
  let name := (pathName p).toList
  match name.reverse.findIdx? (fun c => c = '.') with
  | none => ""
  | some j =>
    let i := name.length - 1 - j
    if 0 < i && i < name.length - 1 then String.mk (name.drop i) else ""

/-- Final component without its suffix, as in pathlib `Path.stem`. -/
def pathStem (p : String) : String :=
  let name := (pathName p).toList
  match name.reverse.findIdx? (fun c => c = '.') with
  | none => String.mk name
  | some j =>
    let i := name.length - 1 - j
    if 0 < i && i < name.length - 1 then String.mk (name.take i) else String.mk name

/-- Lower-case a string character-wise, as in Python `str.lower` on ASCII. -/
def lowerStr (s : String) : String :=
  String.mk (s.toList.map Char.toLower)

/-! ## Byte-level output checks -/

/-- A filesystem view for the raw-byte checks: path to file bytes, `none`
when opening or reading the path raises. -/
def ByteFS : Type := String → Option (List Nat)

/-- The 4-byte GLB signature b"glTF". -/
def glTFsig : List Nat := [103, 108, 84, 70]

/-- The marker token b"mtllib" searched for by the OBJ heuristic. -/
def mtllibTok : List Nat := [109, 116, 108, 108, 105, 98]

/-- Python bytes whitespace, as stripped by `bytes.lstrip`. -/
def pyWhitespace (b : Nat) : Bool :=
  b == 32 || b == 9 || b == 10 || b == 13 || b == 11 || b == 12

/-- Python `bytes.startswith`. -/
def startsWithBytes (l pre : List Nat) : Bool :=
  l.take pre.length == pre

/-- Python `needle in hay` on bytes: contiguous-subsequence search. -/
def containsBytes (needle : List Nat) : List Nat → Bool
  | [] => needle.isEmpty
  | b :: rest => startsWithBytes (b :: rest) needle || containsBytes needle rest

/-- Embedding of `is_valid_glb`: read the first 4 bytes and compare with
b"glTF"; any exception while opening or reading yields `false`. -/
def is_valid_glb (fs : ByteFS) (p : String) : Bool :=
  match fs p with
  | none => false
  | some bs => bs.take 4 == glTFsig

/-- Embedding of `looks_like_obj_text`: read the first 64 bytes; report
`true` when they contain b"mtllib" or, after stripping leading whitespace,
start with b"#", b"o " or b"v "; any exception yields `false`. -/
def looks_like_obj_text (fs : ByteFS) (p : String) : Bool :=
  match fs p with
  | none => false
  | some bs =>
    let head := bs.take 64
    containsBytes mtllibTok head
      || startsWithBytes (head.dropWhile pyWhitespace) [35]
      || startsWithBytes (head.dropWhile pyWhitespace) [111, 32]
      || startsWithBytes (head.dropWhile pyWhitespace) [118, 32]

/-- Outcome of the post-paint output verification step in `main`. -/
inductive PaintVerdict : Type
  | texturedOk : PaintVerdict
  | renamedObj : PaintVerdict
  | warnUnrecognized : PaintVerdict
  | warnMissing : PaintVerdict
deriving DecidableEq, Repr

/-- Embedding of the output-verification block of `main` (the
`if out_glb_maybe.exists()` chain): accept a valid GLB as is, rename OBJ
text from the .glb path to the .obj path, warn otherwise; a missing file
only warns.  Returns the verdict and the filesystem afterwards. -/
def verify_paint_output (fs : ByteFS) (outGlb outObj : String) :
    PaintVerdict × ByteFS :=
  match fs outGlb with
  | none => (PaintVerdict.warnMissing, fs)
  | some _ =>
    if is_valid_glb fs outGlb then (PaintVerdict.texturedOk, fs)
    else if looks_like_obj_text fs outGlb then
      (PaintVerdict.renamedObj,
        fun q => if q = outObj then fs outGlb else if q = outGlb then none else fs q)
    else (PaintVerdict.warnUnrecognized, fs)

/-! ## Image model and background removal -/

/-- A PIL image as the script observes it: its mode string, whether
`"transparency"` is in `im.info`, and an opaque pixel-content identifier. -/
structure PILImage : Type where
  mode : String
  transparencyInfo : Bool
  content : Nat
deriving DecidableEq, Repr

/-- PIL `Image.convert`: the script only ever observes the resulting mode;
pixel conversion happens inside PIL and is abstracted. -/
def PILImage.convert (im : PILImage) (m : String) : PILImage :=
  { im with mode := m }

/-- Whether the opened image carries alpha in the sense of the script's
check: mode RGBA or LA, or a transparency entry in the info dictionary. -/
def imageHasAlpha (im : PILImage) : Bool :=
  (im.mode == "RGBA" || im.mode == "LA") || im.transparencyInfo

/-- A filesystem view for the image functions: path to decoded image,
`none` when `Image.open` raises. -/
def ImgFS : Type := String → Option PILImage

/-- Embedding of `has_alpha_png`: `false` unless the suffix lower-cases to
".png"; then open the image and apply the mode/transparency check, with
any exception yielding `false`. -/
def has_alpha_png (fs : ImgFS) (p : String) : Bool :=
  if !(lowerStr (pathSuffix p) == ".png") then false
  else
    match fs p with
    | none => false
    | some im =>
      if im.mode == "RGBA" || im.mode == "LA" then true
      else im.transparencyInfo

/-- Embedding of `remove_background_to_png`.  `rembgF` is the external
`BackgroundRemover` model.  When the source already passes
`has_alpha_png` and removal is not forced, return the source path with the
filesystem untouched.  Otherwise open the source (propagating failure as
`none`), convert to RGB when needed, run the model, convert to RGBA, save
at the destination, and return the destination path.  The `mkdir` of the
destination's parent has no observable effect in this model. -/
def remove_background_to_png (rembgF : PILImage → PILImage) (fs : ImgFS)
    (src dst_png : String) (force : Bool) : Option (String × ImgFS) :=
  if !force && has_alpha_png fs src then some (src, fs)
  else
    match fs src with
    | none => none
    | some im =>
      let im_rgb := if !(im.mode == "RGB") then im.convert "RGB" else im
      let out := (rembgF im_rgb).convert "RGBA"
      some (dst_png, fun q => if q = dst_png then some out else fs q)

/-! ## Input selection and startup -/

/-- The extension set accepted by `collect_images`. -/
def IMG_EXTS : List String :=
  [".png", ".jpg", ".jpeg", ".webp", ".bmp", ".tif", ".tiff"]

/-- Lexicographic order on code-point lists (Python string comparison). -/
def listLeNat : List Nat → List Nat → Bool
  | [], _ => true
  | _ :: _, [] => false
  | x :: xs, y :: ys =>
    if x < y then true else if y < x then false else listLeNat xs ys

/-- Python string comparison, lexicographic on code points. -/
def strLe (a b : String) : Bool :=
  listLeNat (a.toList.map Char.toNat) (b.toList.map Char.toNat)

/-- Insert into a sorted list of strings (helper for Python `sorted`). -/
def insertSorted (x : String) : List String → List String
  | [] => [x]
  | y :: ys => if strLe x y then x :: y :: ys else y :: insertSorted x ys

/-- Python `sorted` on strings, by insertion sort. -/
def sortStrings (l : List String) : List String :=
  l.foldr insertSorted []

/-- Embedding of `collect_images`: sort the directory entries, keep the
regular files whose lower-cased suffix is a supported image extension. -/
def collect_images (entries : List String) (isFileF : String → Bool) : List String :=
  (sortStrings entries).filter
    (fun p => isFileF p && IMG_EXTS.contains (lowerStr (pathSuffix p)))

/-- Parsed command-line arguments of the script. -/
structure Args : Type where
  removeBg : Bool
  forceRemove : Bool
  path : Option String
deriving DecidableEq, Repr

/-- Python truthiness of `args.path` (a `None` or empty string is falsy). -/
def truthyPath : Option String → Bool
  | none => false
  | some s => !(s == "")

/-- How `main` proceeds after input selection: either it printed the given
messages and returned before any pipeline was constructed, or it goes on
to load the shape and paint pipelines and run the loop on these images. -/
inductive StartupResult : Type
  | earlyReturn : List String → StartupResult
  | runPipelines : List String → StartupResult
deriving DecidableEq, Repr

/-- Messages printed when no images were found. -/
def noImagesLines : List String :=
  ["[INFO] No images found in the input directory.",
   "[INFO] Put one or more images into ./input and run again, or use --path <file>."]

/-- Embedding of the input-selection prologue of `main` (everything before
the pipeline constructions).  `resolve` models the expanduser/absolute
resolution of an explicit `--path` argument; `existsF` and `isFileF` model
`Path.exists` and `Path.is_file`; `entries` models the input directory
listing. -/
def main_startup (args : Args) (resolve : String → String)
    (existsF isFileF : String → Bool) (entries : List String) : StartupResult :=
  let selected : Except (List String) (List String) :=
    if truthyPath args.path then
      let single := resolve (args.path.getD "")
      if !(existsF single && isFileF single) then
        Except.error ["[ERROR] --path file not found: " ++ single]
      else Except.ok [single]
    else Except.ok (collect_images entries isFileF)
  match selected with
  | Except.error msgs => StartupResult.earlyReturn msgs
  | Except.ok images =>
    if images.isEmpty then StartupResult.earlyReturn noImagesLines
    else StartupResult.runPipelines images

/-! ## The per-image loop -/

/-- Orchestrator state: the process working directory, an opaque external
world (filesystem contents, GPU state, ...), and the console log. -/
structure OrchState : Type where
  cwd : String
  world : Nat
  log : List String
deriving DecidableEq, Repr

/-- The body of the try block for one image (steps 3 to 7: background
removal, shape, paint, export, verification).  Given the image path and
the world, it yields the new world, the lines it printed, and the message
of an uncaught exception when one was raised. -/
def JobBody : Type := String → Nat → Nat × List String × Option String

/-- The "[INFO] Processing:" line printed at the top of each iteration. -/
def procLine (img : String) : String :=
  "[INFO] Processing: " ++ pathName img

/-- The "[ERROR] Failed on" line printed by the except branch. -/
def errLine (img e : String) : String :=
  "[ERROR] Failed on " ++ pathName img ++ ": " ++ e

/-- One iteration of the loop in `main`: print the header, save the
working directory, enter the per-item directory, run the try-block body,
log the exception when the body raised one, and in all cases restore the
saved working directory (the finally branch). -/
def run_job (body : JobBody) (outputDir : String) (st : OrchState)
    (img : String) : OrchState :=
  let perDir := outputDir ++ "/" ++ pathStem img
  let old_cwd := st.cwd
  let entered : OrchState :=
    { st with cwd := perDir,
              log := st.log ++ [procLine img, "[INFO] Output dir: " ++ perDir] }
  let res := body img entered.world
  let afterBody : OrchState :=
    { entered with world := res.1, log := entered.log ++ res.2.1 }
  let caught : OrchState :=
    match res.2.2 with
    | none => afterBody
    | some e => { afterBody with log := afterBody.log ++ [errLine img e] }
  { caught with cwd := old_cwd }

/-- The whole batch loop of `main` over the selected images. -/
def run_batch (body : JobBody) (outputDir : String) (st : OrchState) :
    List String → OrchState
  | [] => st
  | img :: rest => run_batch body outputDir (run_job body outputDir st img) rest

/-! ## Concrete fixtures used by witnesses and counterexamples -/

/-- A well-formed GLB file at "m.glb". -/
def fsW4 : ByteFS := fun q => if q = "m.glb" then some (glTFsig ++ [2, 0, 0, 0]) else none

/-- A paint output whose mtllib token sits entirely beyond byte 64. -/
def c5bytes : List Nat := List.replicate 64 120 ++ mtllibTok

/-- Filesystem holding `c5bytes` at the textured .glb path. -/
def fsC5 : ByteFS := fun q => if q = "t_textured.glb" then some c5bytes else none

/-- A paint output starting with the mtllib token. -/
def c5okBytes : List Nat := mtllibTok ++ [10]

/-- Filesystem holding `c5okBytes` at the textured .glb path. -/
def fsC5ok : ByteFS := fun q => if q = "t_textured.glb" then some c5okBytes else none

/-- A paint output that is neither GLB nor OBJ text. -/
def fsC6 : ByteFS := fun q => if q = "t_textured.glb" then some [1, 2, 3] else none

/-- A filesystem on which every open fails. -/
def fsNone : ByteFS := fun _ => none

/-- An RGBA image, stored under a non-PNG name in `fsC3`. -/
def imAlphaWebp : PILImage := ⟨"RGBA", false, 7⟩

/-- Filesystem with the RGBA image at "cat.webp". -/
def fsC3 : ImgFS := fun q => if q = "cat.webp" then some imAlphaWebp else none

/-- Filesystem with the RGBA image at "cat.png". -/
def fsC3png : ImgFS := fun q => if q = "cat.png" then some imAlphaWebp else none

/-- An opaque RGB image. -/
def imOpaque : PILImage := ⟨"RGB", false, 5⟩

/-- Filesystem with the opaque image at "cat.jpg". -/
def fsC7 : ImgFS := fun q => if q = "cat.jpg" then some imOpaque else none

/-- A job body that raises "boom" exactly on image "b.png". -/
def bodyBoom : JobBody := fun i w => (w, [], if i = "b.png" then some "boom" else none)

/-- An initial orchestrator state. -/
def stStart : OrchState := ⟨"/home/user", 0, []⟩

/-- Claim C4: the verification step classifies a file as GLB exactly when
its first 4 bytes equal b"glTF"; in particular a file shorter than 4 bytes
is never accepted. -/
theorem c4_glb_signature (fs : ByteFS) (p : String) :
    (is_valid_glb fs p = true ↔ ∃ bs, fs p = some bs ∧ bs.take 4 = glTFsig)
    ∧ (∀ bs, fs p = some bs → bs.length < 4 → is_valid_glb fs p = false) := by
  constructor
  · constructor
    · intro h
      unfold is_valid_glb at h
      cases hfs : fs p with
      | none => rw [hfs] at h; exact absurd h (by simp)
      | some bs =>
        rw [hfs] at h
        exact ⟨bs, rfl, by simpa using h⟩
    · rintro ⟨bs, hfs, htake⟩
      unfold is_valid_glb
      rw [hfs]
      simp [htake]
  · intro bs hfs hlen
    unfold is_valid_glb
    rw [hfs]
    simp only [beq_eq_false_iff_ne, ne_eq]
    intro hq
    have := congrArg List.length hq
    simp [glTFsig] at this
    omega

/-- Witness for C4 at a concrete well-formed GLB file. -/
theorem c4_glb_signature_witness :
    (is_valid_glb fsW4 "m.glb" = true ↔ ∃ bs, fsW4 "m.glb" = some bs ∧ bs.take 4 = glTFsig)
    ∧ (∀ bs, fsW4 "m.glb" = some bs → bs.length < 4 → is_valid_glb fsW4 "m.glb" = false) :=
  c4_glb_signature fsW4 "m.glb"

/-- Claim C10: on any path whose open or read fails, both verification
predicates return false, and the verification step only warns. -/
theorem c10_checks_total (fs : ByteFS) (p outObj : String) (hfail : fs p = none) :
    is_valid_glb fs p = false ∧ looks_like_obj_text fs p = false
    ∧ verify_paint_output fs p outObj = (PaintVerdict.warnMissing, fs) := by
  unfold is_valid_glb looks_like_obj_text verify_paint_output
  rw [hfail]
  simp

/-- Witness for C10: an always-failing filesystem. -/
theorem c10_checks_total_witness :
    is_valid_glb fsNone "missing.glb" = false
    ∧ looks_like_obj_text fsNone "missing.glb" = false
    ∧ verify_paint_output fsNone "missing.glb" "missing.obj" = (PaintVerdict.warnMissing, fsNone) :=
  c10_checks_total fsNone "missing.glb" "missing.obj" rfl

/-- Claim C6: an existing paint output that is neither a valid GLB nor OBJ
text yields the warning verdict and leaves the filesystem untouched. -/
theorem c6_unrecognized_untouched (fs : ByteFS) (outGlb outObj : String) (bs : List Nat)
    (hex : fs outGlb = some bs)
    (hglb : is_valid_glb fs outGlb = false)
    (hobj : looks_like_obj_text fs outGlb = false) :
    verify_paint_output fs outGlb outObj = (PaintVerdict.warnUnrecognized, fs) := by
  unfold verify_paint_output
  rw [hex]
  simp [hglb, hobj]

/-- Witness for C6 at a concrete unrecognizable output file. -/
theorem c6_unrecognized_untouched_witness :
    verify_paint_output fsC6 "t_textured.glb" "t_textured.obj"
      = (PaintVerdict.warnUnrecognized, fsC6) :=
  c6_unrecognized_untouched fsC6 "t_textured.glb" "t_textured.obj" [1, 2, 3]
    (by decide) (by decide) (by decide)

/-- Counterexample to C5 as stated: this file contains b"mtllib" (beyond
the first 64 bytes), exists, and is not a valid GLB, yet the verification
step does not rename it and only warns. -/
theorem c5_counterexample :
    containsBytes mtllibTok c5bytes = true
    ∧ is_valid_glb fsC5 "t_textured.glb" = false
    ∧ (fsC5 "t_textured.glb").isSome = true
    ∧ (verify_paint_output fsC5 "t_textured.glb" "t_textured.obj").1 = PaintVerdict.warnUnrecognized
    ∧ (verify_paint_output fsC5 "t_textured.glb" "t_textured.obj").2 "t_textured.obj" = none := by
  decide

/-- Claim C5 (amended): when the first 64 bytes of an existing,
non-GLB paint output contain b"mtllib", or start (after stripping leading
whitespace within those 64 bytes) with b"#", b"o " or b"v ", the file is
classified as OBJ text and renamed from the .glb path to the .obj path. -/
theorem c5_amended_rename (fs : ByteFS) (outGlb outObj : String) (bs : List Nat)
    (hne : outGlb ≠ outObj)
    (hex : fs outGlb = some bs)
    (hglb : is_valid_glb fs outGlb = false)
    (hheur : containsBytes mtllibTok (bs.take 64) = true
      ∨ startsWithBytes ((bs.take 64).dropWhile pyWhitespace) [35] = true
      ∨ startsWithBytes ((bs.take 64).dropWhile pyWhitespace) [111, 32] = true
      ∨ startsWithBytes ((bs.take 64).dropWhile pyWhitespace) [118, 32] = true) :
    looks_like_obj_text fs outGlb = true
    ∧ (verify_paint_output fs outGlb outObj).1 = PaintVerdict.renamedObj
    ∧ (verify_paint_output fs outGlb outObj).2 outObj = some bs
    ∧ (verify_paint_output fs outGlb outObj).2 outGlb = none := by
  have hobj : looks_like_obj_text fs outGlb = true := by
    unfold looks_like_obj_text
    rw [hex]
    simp only [Bool.or_eq_true]
    rcases hheur with h | h | h | h <;> simp [h]
  have hstep : verify_paint_output fs outGlb outObj
      = (PaintVerdict.renamedObj,
          fun q => if q = outObj then fs outGlb else if q = outGlb then none else fs q) := by
    unfold verify_paint_output
    rw [hex]
    simp [hglb, hobj]
  refine ⟨hobj, by rw [hstep], ?_, ?_⟩
  · rw [hstep]
    simp [hex]
  · rw [hstep]
    simp [hne, Ne.symm hne]

/-- Witness for the amended C5 at a concrete OBJ-text output file. -/
theorem c5_amended_rename_witness :
    looks_like_obj_text fsC5ok "t_textured.glb" = true
    ∧ (verify_paint_output fsC5ok "t_textured.glb" "t_textured.obj").1 = PaintVerdict.renamedObj
    ∧ (verify_paint_output fsC5ok "t_textured.glb" "t_textured.obj").2 "t_textured.obj" = some c5okBytes
    ∧ (verify_paint_output fsC5ok "t_textured.glb" "t_textured.obj").2 "t_textured.glb" = none :=
  c5_amended_rename fsC5ok "t_textured.glb" "t_textured.obj" c5okBytes
    (by decide) (by decide) (by decide) (Or.inl (by decide))

/-- Helper: the alpha check is false whenever the suffix is not ".png". -/
theorem has_alpha_png_false_of_suffix (fs : ImgFS) (p : String)
    (h : lowerStr (pathSuffix p) ≠ ".png") : has_alpha_png fs p = false := by
  unfold has_alpha_png
  simp [h]

/-- Helper: the alpha check is false when the opened image has no alpha. -/
theorem has_alpha_png_false_of_noalpha (fs : ImgFS) (p : String) (im : PILImage)
    (hopen : fs p = some im) (h : imageHasAlpha im = false) :
    has_alpha_png fs p = false := by
  have hm : (im.mode == "RGBA" || im.mode == "LA") = false ∧ im.transparencyInfo = false := by
    simpa [imageHasAlpha, Bool.or_eq_false_iff] using h
  unfold has_alpha_png
  rw [hopen]
  cases hs : (lowerStr (pathSuffix p) == ".png") <;> simp [hm.1, hm.2]

/-- Helper: when the skip condition is false, background removal opens the
source, converts to RGB when needed, runs the model, converts to RGBA and
saves at the destination. -/
theorem remove_background_runs (rembgF : PILImage → PILImage) (fs : ImgFS)
    (src dst : String) (force : Bool) (im : PILImage)
    (hopen : fs src = some im)
    (hskip : (!force && has_alpha_png fs src) = false) :
    remove_background_to_png rembgF fs src dst force
      = some (dst, fun q => if q = dst then
            some ((rembgF (if !(im.mode == "RGB") then im.convert "RGB" else im)).convert "RGBA")
          else fs q) := by
  unfold remove_background_to_png
  rw [hskip, hopen]
  simp

/-- Helper: the pre-model image is always in 3-channel RGB mode. -/
theorem rgb_branch_mode (im : PILImage) :
    (if !(im.mode == "RGB") then im.convert "RGB" else im).mode = "RGB" := by
  cases hm : (im.mode == "RGB") with
  | true => simpa using beq_iff_eq.mp hm
  | false => simp [PILImage.convert]

/-- Counterexample to C3 as stated: an RGBA source image stored under a
non-PNG name; background removal without force does not return the source
path unchanged, it writes the destination and returns it. -/
theorem c3_counterexample :
    imageHasAlpha imAlphaWebp = true
    ∧ ("cat_bgremoved.png" : String) ≠ "cat.webp"
    ∧ (remove_background_to_png id fsC3 "cat.webp" "cat_bgremoved.png" false).map Prod.fst
        = some "cat_bgremoved.png"
    ∧ (remove_background_to_png id fsC3 "cat.webp" "cat_bgremoved.png" false).map
        (fun r => (r.2 "cat_bgremoved.png").isSome) = some true := by
  decide

/-- Claim C3 (amended): for a source image whose suffix lower-cases to
".png" and that carries alpha (RGBA or LA mode, or a transparency entry),
background removal without force returns the source path and leaves the
filesystem unchanged. -/
theorem c3_amended_alpha_png_noop (rembgF : PILImage → PILImage) (fs : ImgFS)
    (src dst : String) (im : PILImage)
    (hsuf : lowerStr (pathSuffix src) = ".png")
    (hopen : fs src = some im)
    (halpha : im.mode = "RGBA" ∨ im.mode = "LA" ∨ im.transparencyInfo = true) :
    remove_background_to_png rembgF fs src dst false = some (src, fs) := by
  have hpng : has_alpha_png fs src = true := by
    unfold has_alpha_png
    rw [hsuf, hopen]
    rcases halpha with h | h | h
    · simp [h]
    · simp [h]
    · cases hm : (im.mode == "RGBA" || im.mode == "LA") <;> simp [h]
  unfold remove_background_to_png
  simp [hpng]

/-- Witness for the amended C3 at a concrete alpha-bearing PNG. -/
theorem c3_amended_alpha_png_noop_witness :
    remove_background_to_png id fsC3png "cat.png" "d.png" false = some ("cat.png", fsC3png) :=
  c3_amended_alpha_png_noop id fsC3png "cat.png" "d.png" imAlphaWebp
    (by decide) (by decide) (Or.inl rfl)

/-- Claim C7: for a source image lacking alpha (or under force), background
removal converts the source to RGB, runs the model, converts the result to
RGBA, saves it at the destination path and returns the destination path. -/
theorem c7_removal_produces_rgba (rembgF : PILImage → PILImage) (fs : ImgFS)
    (src dst : String) (force : Bool) (im : PILImage)
    (hopen : fs src = some im)
    (hgo : force = true ∨ imageHasAlpha im = false) :
    remove_background_to_png rembgF fs src dst force
      = some (dst, fun q => if q = dst then
            some ((rembgF (if !(im.mode == "RGB") then im.convert "RGB" else im)).convert "RGBA")
          else fs q)
    ∧ (if !(im.mode == "RGB") then im.convert "RGB" else im).mode = "RGB"
    ∧ ((rembgF (if !(im.mode == "RGB") then im.convert "RGB" else im)).convert "RGBA").mode = "RGBA" := by
  have hskip : (!force && has_alpha_png fs src) = false := by
    rcases hgo with h | h
    · simp [h]
    · simp [has_alpha_png_false_of_noalpha fs src im hopen h]
  exact ⟨remove_background_runs rembgF fs src dst force im hopen hskip,
    rgb_branch_mode im, rfl⟩

/-- Witness for C7 at a concrete opaque RGB JPEG. -/
theorem c7_removal_produces_rgba_witness :
    remove_background_to_png id fsC7 "cat.jpg" "cat_bgremoved.png" false
      = some ("cat_bgremoved.png", fun q => if q = "cat_bgremoved.png" then
            some ((id (if !(imOpaque.mode == "RGB") then imOpaque.convert "RGB" else imOpaque)).convert "RGBA")
          else fsC7 q)
    ∧ (if !(imOpaque.mode == "RGB") then imOpaque.convert "RGB" else imOpaque).mode = "RGB"
    ∧ ((id (if !(imOpaque.mode == "RGB") then imOpaque.convert "RGB" else imOpaque)).convert "RGBA").mode = "RGBA" :=
  c7_removal_produces_rgba id fsC7 "cat.jpg" "cat_bgremoved.png" false imOpaque
    (by decide) (Or.inr (by decide))

/-- Claim C9: a path whose lower-cased suffix is not ".png" never passes
the alpha check, so without force the source still undergoes background
removal, whatever image it holds. -/
theorem c9_non_png_always_removed (rembgF : PILImage → PILImage) (fs : ImgFS)
    (p dst : String) (im : PILImage)
    (hsuf : lowerStr (pathSuffix p) ≠ ".png")
    (hopen : fs p = some im) :
    has_alpha_png fs p = false
    ∧ remove_background_to_png rembgF fs p dst false
        = some (dst, fun q => if q = dst then
              some ((rembgF (if !(im.mode == "RGB") then im.convert "RGB" else im)).convert "RGBA")
            else fs q) := by
  have h1 := has_alpha_png_false_of_suffix fs p hsuf
  exact ⟨h1, remove_background_runs rembgF fs p dst false im hopen (by simp [h1])⟩

/-- Witness for C9 at a concrete alpha-bearing WEBP. -/
theorem c9_non_png_always_removed_witness :
    has_alpha_png fsC3 "cat.webp" = false
    ∧ remove_background_to_png id fsC3 "cat.webp" "cat_bgremoved.png" false
        = some ("cat_bgremoved.png", fun q => if q = "cat_bgremoved.png" then
              some ((id (if !(imAlphaWebp.mode == "RGB") then imAlphaWebp.convert "RGB" else imAlphaWebp)).convert "RGBA")
            else fsC3 q) :=
  c9_non_png_always_removed id fsC3 "cat.webp" "cat_bgremoved.png" imAlphaWebp
    (by decide) (by decide)

/-- Helper: running a batch over an appended list runs the prefix first. -/
theorem run_batch_append (body : JobBody) (d : String) (l1 l2 : List String)
    (st : OrchState) :
    run_batch body d st (l1 ++ l2) = run_batch body d (run_batch body d st l1) l2 := by
  induction l1 generalizing st with
  | nil => rfl
  | cons x xs ih => simp [run_batch, ih]

/-- Helper: a job only appends to the log. -/
theorem run_job_log_mem (body : JobBody) (d : String) (st : OrchState)
    (img l : String) (h : l ∈ st.log) : l ∈ (run_job body d st img).log := by
  unfold run_job
  cases hb : (body img st.world).2.2 <;> simp [hb, h]

/-- Helper: a batch only appends to the log. -/
theorem run_batch_log_mem (body : JobBody) (d : String) (imgs : List String)
    (st : OrchState) (l : String) (h : l ∈ st.log) :
    l ∈ (run_batch body d st imgs).log := by
  induction imgs generalizing st with
  | nil => exact h
  | cons x xs ih => exact ih _ (run_job_log_mem body d st x l h)

/-- Helper: every job logs its processing header. -/
theorem run_job_proc_mem (body : JobBody) (d : String) (st : OrchState)
    (img : String) : procLine img ∈ (run_job body d st img).log := by
  unfold run_job
  cases hb : (body img st.world).2.2 <;> simp [hb, procLine]

/-- Helper: every image of the batch gets its processing header logged. -/
theorem run_batch_proc_mem (body : JobBody) (d : String) (imgs : List String)
    (st : OrchState) (j : String) (h : j ∈ imgs) :
    procLine j ∈ (run_batch body d st imgs).log := by
  induction imgs generalizing st with
  | nil => cases h
  | cons x xs ih =>
    rcases List.mem_cons.mp h with rfl | hx
    · exact run_batch_log_mem body d xs _ _ (run_job_proc_mem body d st j)
    · exact ih (run_job body d st x) hx

/-- Helper: a job whose body raises logs the error line with the image
name and the message. -/
theorem run_job_err_mem (body : JobBody) (d : String) (st : OrchState)
    (img e : String) (w2 : Nat) (blog : List String)
    (hraise : body img st.world = (w2, blog, some e)) :
    errLine img e ∈ (run_job body d st img).log := by
  unfold run_job
  simp [hraise]

/-- Claim C2: each job saves the working directory before entering the
per-item directory and restores it on every exit path, so after the job
the working directory equals what it was before. -/
theorem c2_cwd_restored (body : JobBody) (outputDir : String) (st : OrchState)
    (img : String) : (run_job body outputDir st img).cwd = st.cwd := by
  unfold run_job
  cases hb : (body img st.world).2.2 <;> simp [hb]

/-- Claim C1: an exception raised in a job's try block is caught there: the
error line carrying the image name and message is in the final log, every
image of the batch (before and after the failing one) still gets processed,
and the batch after the failing job is exactly the batch over the remaining
images. -/
theorem c1_batch_isolation (body : JobBody) (outputDir : String) (st : OrchState)
    (pre post : List String) (img e : String) (w2 : Nat) (blog : List String)
    (hraise : body img (run_batch body outputDir st pre).world = (w2, blog, some e)) :
    errLine img e ∈ (run_batch body outputDir st (pre ++ img :: post)).log
    ∧ (∀ j ∈ pre ++ img :: post,
        procLine j ∈ (run_batch body outputDir st (pre ++ img :: post)).log)
    ∧ run_batch body outputDir st (pre ++ img :: post)
        = run_batch body outputDir
            (run_job body outputDir (run_batch body outputDir st pre) img) post := by
  refine ⟨?_, ?_, ?_⟩
  · rw [run_batch_append]
    exact run_batch_log_mem body outputDir post _ _
      (run_job_err_mem body outputDir _ img e w2 blog hraise)
  · intro j hj
    exact run_batch_proc_mem body outputDir _ st j hj
  · rw [run_batch_append]
    rfl

/-- Witness for C1: a three-image batch whose middle job raises. -/
theorem c1_batch_isolation_witness :
    errLine "b.png" "boom" ∈ (run_batch bodyBoom "/out" stStart (["a.png"] ++ "b.png" :: ["c.png"])).log
    ∧ (∀ j ∈ ["a.png"] ++ "b.png" :: ["c.png"],
        procLine j ∈ (run_batch bodyBoom "/out" stStart (["a.png"] ++ "b.png" :: ["c.png"])).log)
    ∧ run_batch bodyBoom "/out" stStart (["a.png"] ++ "b.png" :: ["c.png"])
        = run_batch bodyBoom "/out"
            (run_job bodyBoom "/out" (run_batch bodyBoom "/out" stStart ["a.png"]) "b.png") ["c.png"] :=
  c1_batch_isolation bodyBoom "/out" stStart ["a.png"] ["c.png"] "b.png" "boom" 0 []
    (by decide)

/-- Claim C8: with a truthy but missing or non-regular `--path` argument,
or with no `--path` and no collected images, `main` prints the message and
returns before the shape or paint pipeline is constructed. -/
theorem c8_startup_early_return (resolve : String → String)
    (existsF isFileF : String → Bool) (entries : List String)
    (rb fr : Bool) (p : String)
    (hp : p ≠ "")
    (hnf : existsF (resolve p) = false ∨ isFileF (resolve p) = false)
    (hempty : collect_images entries isFileF = []) :
    main_startup ⟨rb, fr, some p⟩ resolve existsF isFileF entries
        = StartupResult.earlyReturn ["[ERROR] --path file not found: " ++ resolve p]
    ∧ main_startup ⟨rb, fr, none⟩ resolve existsF isFileF entries
        = StartupResult.earlyReturn noImagesLines
    ∧ (∀ imgs, main_startup ⟨rb, fr, some p⟩ resolve existsF isFileF entries
          ≠ StartupResult.runPipelines imgs)
    ∧ (∀ imgs, main_startup ⟨rb, fr, none⟩ resolve existsF isFileF entries
          ≠ StartupResult.runPipelines imgs) := by
  have htr : truthyPath (some p) = true := by
    simp [truthyPath, hp]
  have h1 : main_startup ⟨rb, fr, some p⟩ resolve existsF isFileF entries
      = StartupResult.earlyReturn ["[ERROR] --path file not found: " ++ resolve p] := by
    unfold main_startup
    rw [htr]
    rcases hnf with h | h <;> simp [h]
  have h2 : main_startup ⟨rb, fr, none⟩ resolve existsF isFileF entries
      = StartupResult.earlyReturn noImagesLines := by
    unfold main_startup
    simp [truthyPath, hempty]
  refine ⟨h1, h2, ?_, ?_⟩
  · intro imgs
    rw [h1]
    simp
  · intro imgs
    rw [h2]
    simp

/-- Witness for C8: a missing explicit path and an empty input listing. -/
theorem c8_startup_early_return_witness :
    main_startup ⟨false, false, some "/tmp/x.png"⟩ id (fun _ => false) (fun _ => false) []
        = StartupResult.earlyReturn ["[ERROR] --path file not found: " ++ id "/tmp/x.png"]
    ∧ main_startup ⟨false, false, none⟩ id (fun _ => false) (fun _ => false) []
        = StartupResult.earlyReturn noImagesLines
    ∧ (∀ imgs, main_startup ⟨false, false, some "/tmp/x.png"⟩ id (fun _ => false) (fun _ => false) []
          ≠ StartupResult.runPipelines imgs)
    ∧ (∀ imgs, main_startup ⟨false, false, none⟩ id (fun _ => false) (fun _ => false) []
          ≠ StartupResult.runPipelines imgs) :=
  c8_startup_early_return id (fun _ => false) (fun _ => false) [] false false "/tmp/x.png"
    (by decide) (Or.inl rfl) rfl
